import Mathlib

/-!
Verification of the auth module of rust-etcd (`src/auth.rs`): the
status-code-to-outcome mappings of the `enable`, `disable` and `status`
operations, the multi-endpoint failover dispatch, URL composition, and the
permission-revocation helpers.  Rust values are embedded shallowly: HTTP
status codes are `Nat`, URIs and bodies are `String`, the network transport
and the JSON parsers of `serde_json` are explicit function parameters, and
futures are collapsed to their resolved `Except` values.
-/

namespace RustEtcd

/-- HTTP status codes (`hyper::StatusCode`), as bare numbers:
`Ok = 200`, `BadRequest = 400`, `Unauthorized = 401`, `Conflict = 409`. -/
abbrev StatusCode := Nat

/-- Response headers, as an association list of header name and value. -/
abbrev Headers := List (String × String)

/-- The structure returned by the `GET /v2/auth/enable` endpoint
(`struct AuthStatus` in `src/auth.rs`). -/
structure AuthStatus where
  enabled : Bool
deriving DecidableEq, Repr

/-- The result of attempting to disable the auth system
(`enum DisableAuth` in `src/auth.rs`). -/
inductive DisableAuth where
  | alreadyDisabled
  | disabled
  | unauthorized
deriving DecidableEq, Repr

/-- `DisableAuth::is_disabled` from `src/auth.rs`. -/
def DisableAuth.is_disabled : DisableAuth → Bool
  | DisableAuth.alreadyDisabled | DisableAuth.disabled => true
  | DisableAuth.unauthorized => false

/-- The result of attempting to enable the auth system
(`enum EnableAuth` in `src/auth.rs`). -/
inductive EnableAuth where
  | alreadyEnabled
  | enabled
  | rootUserRequired
deriving DecidableEq, Repr

/-- `EnableAuth::is_enabled` from `src/auth.rs`. -/
def EnableAuth.is_enabled : EnableAuth → Bool
  | EnableAuth.alreadyEnabled | EnableAuth.enabled => true
  | EnableAuth.rootUserRequired => false

/-- Modelled from the spec: the error payload of `serde_json` (the
`serde_json::Error` carried by the `Serialization` variant; the serde
crate is not under `src/`).  Only its identity matters here. -/
structure SerdeError where
  msg : String
deriving DecidableEq, Repr

/-- Modelled from the spec: the application-level error payload
(`error::ApiError`; the `error` module is not under `src/`).  The spec calls
it "a recognized application-level error payload"; only its identity
matters here. -/
structure ApiError where
  errorCode : Nat
  message : String
deriving DecidableEq, Repr

/-- Modelled from the spec: the error taxonomy of section 7
(`error::Error`; the `error` module is not under `src/`): `Transport`
(network/connection-level failure or malformed composed URL),
`Serialization`, `Application` (the source's `Error::Api`), and
`UnexpectedStatus(code)`.  `Error::from` on a URI-parse or hyper transport
failure yields the `Transport` class. -/
inductive Error where
  | transport (msg : String)
  | serialization (e : SerdeError)
  | api (e : ApiError)
  | unexpectedStatus (code : StatusCode)
deriving DecidableEq, Repr

/-- Modelled from the spec: `client::ClusterInfo` (the `client` module is
not under `src/`), "a small immutable record derived from response headers
(leader identity, cluster identifier, raft term/index if present)".
Missing headers produce absent fields, never an error. -/
structure ClusterInfo where
  cluster_id : Option String
  etcd_index : Option Nat
  raft_index : Option Nat
  raft_term : Option Nat
deriving DecidableEq, Repr

/-- Modelled from the spec: `ClusterInfo::from(headers)`; a pure function
of the headers, best-effort, defaulting each absent field. -/
def ClusterInfo.fromHeaders (headers : Headers) : ClusterInfo :=
  { cluster_id := headers.lookup "X-Etcd-Cluster-Id"
    etcd_index := (headers.lookup "X-Etcd-Index").bind String.toNat?
    raft_index := (headers.lookup "X-Raft-Index").bind String.toNat?
    raft_term := (headers.lookup "X-Raft-Term").bind String.toNat? }

/-- Modelled from the spec: `client::Response` (the `client` module is not
under `src/`), constructed literally in `src/auth.rs` with a `data` field
and a `cluster_info` field. -/
structure Response (T : Type) where
  data : T
  cluster_info : ClusterInfo
deriving DecidableEq, Repr

/-- A received HTTP response: status code, headers and body, as consumed
by the closures in `src/auth.rs`. -/
structure HttpResponse where
  status : StatusCode
  headers : Headers
  body : String
deriving DecidableEq, Repr

/-- `endpoint.as_ref().ends_with("/")` from `build_url`: whether the last
character of the endpoint string is a slash. -/
def ends_with_slash (s : String) : Bool :=
  s.data.getLast? == some '/'

/-- `build_url` from `src/auth.rs`: the full URL for an API call,
`format!("{}{}v2/auth{}", endpoint, maybe_slash, path)` where `maybe_slash`
is empty when the endpoint already ends with a slash and `"/"` otherwise. -/
def build_url (endpoint : String) (path : String) : String :=
  let maybe_slash := if ends_with_slash endpoint then "" else "/"
  endpoint ++ maybe_slash ++ "v2/auth" ++ path

/-- The status-to-outcome mapping of `disable` (the body of the
`response.and_then` closure in `src/auth.rs`, lines 384-405): `Ok` maps to
`Disabled`, `Conflict` to `AlreadyDisabled`, `Unauthorized` to
`Unauthorized`, anything else to `Error::UnexpectedStatus(status)`.
Cluster info is extracted from the headers before the match, as in the
source. -/
def disable_handle (response : HttpResponse) : Except Error (Response DisableAuth) :=
  let status := response.status
  let cluster_info := ClusterInfo.fromHeaders response.headers
  match status with
  | 200 => Except.ok { data := DisableAuth.disabled, cluster_info }
  | 409 => Except.ok { data := DisableAuth.alreadyDisabled, cluster_info }
  | 401 => Except.ok { data := DisableAuth.unauthorized, cluster_info }
  | _ => Except.error (Error.unexpectedStatus status)

/-- The status-to-outcome mapping of `enable` (the body of the
`response.and_then` closure in `src/auth.rs`, lines 432-453): `Ok` maps to
`Enabled`, `BadRequest` to `RootUserRequired`, `Conflict` to
`AlreadyEnabled`, anything else to `Error::UnexpectedStatus(status)`. -/
def enable_handle (response : HttpResponse) : Except Error (Response EnableAuth) :=
  let status := response.status
  let cluster_info := ClusterInfo.fromHeaders response.headers
  match status with
  | 200 => Except.ok { data := EnableAuth.enabled, cluster_info }
  | 400 => Except.ok { data := EnableAuth.rootUserRequired, cluster_info }
  | 409 => Except.ok { data := EnableAuth.alreadyEnabled, cluster_info }
  | _ => Except.error (Error.unexpectedStatus status)

/-- The body handling of `status` (the closure in `src/auth.rs`, lines
478-497).  The two `serde_json::from_slice` calls are passed in as the
parse functions `parse_auth_status` and `parse_api_error`: on status 200
the body is parsed as `AuthStatus` (a parse failure is
`Error::Serialization`), otherwise it is parsed as `ApiError` yielding
`Error::Api` (a parse failure is again `Error::Serialization`). -/
def status_handle
    (parse_auth_status : String → Except SerdeError AuthStatus)
    (parse_api_error : String → Except SerdeError ApiError)
    (response : HttpResponse) : Except Error (Response Bool) :=
  let status := response.status
  let cluster_info := ClusterInfo.fromHeaders response.headers
  let body := response.body
  if status = 200 then
    match parse_auth_status body with
    | Except.ok data => Except.ok { data := data.enabled, cluster_info }
    | Except.error error => Except.error (Error.serialization error)
  else
    match parse_api_error body with
    | Except.ok error => Except.error (Error.api error)
    | Except.error error => Except.error (Error.serialization error)

/-- HTTP methods used by the three operations. -/
inductive Method where
  | put
  | get
  | delete
deriving DecidableEq, Repr

/-- One outgoing HTTP request: method, the parsed URI (represented by its
string form) and an optional body. -/
structure HttpRequest where
  method : Method
  uri : String
  body : Option String
deriving DecidableEq, Repr

/-- The request issued by `disable`: `http_client.delete(uri)`
(`src/auth.rs` line 382). -/
def disable_request (uri : String) : HttpRequest :=
  { method := Method.delete, uri, body := none }

/-- The request issued by `enable`: `http_client.put(uri, "".to_owned())`
(`src/auth.rs` line 429). -/
def enable_request (uri : String) : HttpRequest :=
  { method := Method.put, uri, body := some "" }

/-- The request issued by `status`: `http_client.get(uri)`
(`src/auth.rs` line 476). -/
def status_request (uri : String) : HttpRequest :=
  { method := Method.get, uri, body := none }

/-- The transport: issuing a request either yields a response or fails
with a connection-level error, which `Error::from` turns into the
`Transport` class.  A parameter of the embedding (hyper is not under
`src/`). -/
abbrev Network := HttpRequest → Except String HttpResponse

/-- `Uri::from_str`: parsing the composed URL either yields the parsed URI
(represented by its string form) or fails.  A parameter of the embedding
(hyper is not under `src/`). -/
abbrev UriParse := String → Option String

/-- The per-endpoint closure of `disable` (`src/auth.rs` lines 374-408):
compose the URL with suffix `"/enable"`, parse it (a parse failure is a
`Transport`-class error and no request is issued), issue a DELETE, map a
connection failure to `Transport`, and apply the status-to-outcome
mapping. -/
def disable_probe (parse_uri : UriParse) (net : Network) (member : String) :
    Except Error (Response DisableAuth) :=
  let url := build_url member "/enable"
  match parse_uri url with
  | none => Except.error (Error.transport ("invalid URI: " ++ url))
  | some uri =>
    match net (disable_request uri) with
    | Except.error e => Except.error (Error.transport e)
    | Except.ok response => disable_handle response

/-- The per-endpoint closure of `enable` (`src/auth.rs` lines 420-456):
same URL composition with suffix `"/enable"`, issuing a PUT with an empty
body. -/
def enable_probe (parse_uri : UriParse) (net : Network) (member : String) :
    Except Error (Response EnableAuth) :=
  let url := build_url member "/enable"
  match parse_uri url with
  | none => Except.error (Error.transport ("invalid URI: " ++ url))
  | some uri =>
    match net (enable_request uri) with
    | Except.error e => Except.error (Error.transport e)
    | Except.ok response => enable_handle response

/-- The per-endpoint closure of `status` (`src/auth.rs` lines 468-500):
same URL composition with suffix `"/enable"`, issuing a GET and handling
the body. -/
def status_probe
    (parse_auth_status : String → Except SerdeError AuthStatus)
    (parse_api_error : String → Except SerdeError ApiError)
    (parse_uri : UriParse) (net : Network) (member : String) :
    Except Error (Response Bool) :=
  let url := build_url member "/enable"
  match parse_uri url with
  | none => Except.error (Error.transport ("invalid URI: " ++ url))
  | some uri =>
    match net (status_request uri) with
    | Except.error e => Except.error (Error.transport e)
    | Except.ok response => status_handle parse_auth_status parse_api_error response

/-- Modelled from the spec: `async::first_ok` (the `async` module is not
under `src/`), the failover dispatcher of section 4.3: attempt the
endpoints in the order supplied; the first successful probe
short-circuits the dispatch and its result is returned; if every probe
fails, the complete ordered collection of per-endpoint errors is
returned, one per endpoint, in attempt order, with no deduplication. -/
def first_ok {T : Type} : List String → (String → Except Error T) → Except (List Error) T
  | [], _ => Except.error []
  | member :: rest, callback =>
    match callback member with
    | Except.ok v => Except.ok v
    | Except.error err =>
      match first_ok rest callback with
      | Except.ok v => Except.ok v
      | Except.error errors => Except.error (err :: errors)

/-- `disable` from `src/auth.rs`: dispatch the disable probe over the
client's endpoints. -/
def disable (parse_uri : UriParse) (net : Network) (endpoints : List String) :
    Except (List Error) (Response DisableAuth) :=
  first_ok endpoints (disable_probe parse_uri net)

/-- `enable` from `src/auth.rs`: dispatch the enable probe over the
client's endpoints. -/
def enable (parse_uri : UriParse) (net : Network) (endpoints : List String) :
    Except (List Error) (Response EnableAuth) :=
  first_ok endpoints (enable_probe parse_uri net)

/-- `status` from `src/auth.rs`: dispatch the status probe over the
client's endpoints. -/
def status
    (parse_auth_status : String → Except SerdeError AuthStatus)
    (parse_api_error : String → Except SerdeError ApiError)
    (parse_uri : UriParse) (net : Network) (endpoints : List String) :
    Except (List Error) (Response Bool) :=
  first_ok endpoints (status_probe parse_auth_status parse_api_error parse_uri net)

/-- `Iterator::position(|k| k == key)`: the index of the first element
equal to `key`, if any. -/
def position (key : String) : List String → Option Nat
  | [] => none
  | k :: rest => if k = key then some 0 else (position key rest).map (· + 1)

/-- `Vec::remove(position)`: drop the element at the given index,
shifting the elements after it. -/
def remove_at : List String → Nat → List String
  | [], _ => []
  | _ :: rest, 0 => rest
  | k :: rest, n + 1 => k :: remove_at rest n

/-- `struct Permission` from `src/auth.rs`: read and write access lists. -/
structure Permission where
  read : List String
  write : List String
deriving DecidableEq, Repr

/-- `Permission::new` from `src/auth.rs`. -/
def Permission.new : Permission :=
  { read := [], write := [] }

/-- `Permission::add_read_permission` from `src/auth.rs`. -/
def Permission.add_read_permission (p : Permission) (key : String) : Permission :=
  { p with read := p.read ++ [key] }

/-- `Permission::add_write_permission` from `src/auth.rs`. -/
def Permission.add_write_permission (p : Permission) (key : String) : Permission :=
  { p with write := p.write ++ [key] }

/-- `Permission::remove_read_permission` from `src/auth.rs`: if the key
occurs in the read list, remove its first occurrence; otherwise leave the
record unchanged. -/
def Permission.remove_read_permission (p : Permission) (key : String) : Permission :=
  match position key p.read with
  | some pos => { p with read := remove_at p.read pos }
  | none => p

/-- `Permission::remove_write_permission` from `src/auth.rs`: likewise on
the write list. -/
def Permission.remove_write_permission (p : Permission) (key : String) : Permission :=
  match position key p.write with
  | some pos => { p with write := remove_at p.write pos }
  | none => p

/-- `struct Permissions` from `src/auth.rs`. -/
structure Permissions where
  kv : Permission
deriving DecidableEq, Repr

/-- `Permissions::new` from `src/auth.rs`. -/
def Permissions.new : Permissions :=
  { kv := Permission.new }

/-- `struct RoleUpdate` from `src/auth.rs`. -/
structure RoleUpdate where
  name : String
  grants : Permissions
  revocations : Permissions
deriving DecidableEq, Repr

/-- `RoleUpdate::new` from `src/auth.rs`. -/
def RoleUpdate.new (role : String) : RoleUpdate :=
  { name := role, grants := Permissions.new, revocations := Permissions.new }

/-- `RoleUpdate::revoke_kv_read_permission` from `src/auth.rs`:
delegates to `Permission::remove_read_permission` on the revocations. -/
def RoleUpdate.revoke_kv_read_permission (r : RoleUpdate) (key : String) : RoleUpdate :=
  { r with revocations := { kv := r.revocations.kv.remove_read_permission key } }

/-- `RoleUpdate::revoke_kv_write_permission` from `src/auth.rs`:
delegates to `Permission::remove_write_permission` on the revocations. -/
def RoleUpdate.revoke_kv_write_permission (r : RoleUpdate) (key : String) : RoleUpdate :=
  { r with revocations := { kv := r.revocations.kv.remove_write_permission key } }

/-- A concrete transport for concrete runs: only the URL composed from
endpoint `"b"` answers, with status 200; every other request fails at the
connection level. -/
def demoNet : Network := fun req =>
  if req.uri = "b/v2/auth/enable" then
    Except.ok { status := 200, headers := [], body := "" }
  else
    Except.error "connection refused"

/-- A second concrete transport agreeing with `demoNet` everywhere except
on an unrelated URI. -/
def demoNetAlt : Network := fun req =>
  if req.uri = "zzz" then
    Except.ok { status := 418, headers := [], body := "" }
  else
    demoNet req

/-- A concrete transport on which every request fails at the connection
level. -/
def netAllFail : Network := fun _ => Except.error "connection refused"

/-- A concrete URI parser that rejects every string. -/
def badParse : UriParse := fun _ => none

/-- The per-endpoint error produced by probing through `netAllFail`. -/
def connRefused : String → Error := fun _ => Error.transport "connection refused"

/-- A concrete stand-in for `serde_json::from_slice::<AuthStatus>`:
recognizes one fixed body, rejects everything else. -/
def demoParseAuthStatus : String → Except SerdeError AuthStatus := fun body =>
  if body = "enabled-true" then Except.ok { enabled := true }
  else Except.error { msg := "invalid JSON" }

/-- A concrete stand-in for `serde_json::from_slice::<ApiError>`:
recognizes one fixed body, rejects everything else. -/
def demoParseApiError : String → Except SerdeError ApiError := fun body =>
  if body = "api-error" then Except.ok { errorCode := 110, message := "auth failed" }
  else Except.error { msg := "invalid JSON" }

/-- All trailing slashes of a string removed. -/
def strip_trailing_slashes (s : String) : String :=
  String.mk ((s.data.reverse.dropWhile (fun c => c = '/')).reverse)

/-- The URL composition rule as the spec words it: the endpoint with
exactly one trailing slash ensured, then the fixed root `v2/auth`, then
the operation suffix.  Stated for comparison against `build_url`, which
is the translation of the source. -/
def build_url_spec (endpoint : String) (path : String) : String :=
  strip_trailing_slashes endpoint ++ "/" ++ "v2/auth" ++ path

theorem first_ok_prefix_fail_success {T : Type} (f : String → Except Error T)
    (pre : List String) (e : String) (post : List String) (v : T)
    (hpre : ∀ x ∈ pre, ∃ err, f x = Except.error err)
    (he : f e = Except.ok v) :
    first_ok (pre ++ e :: post) f = Except.ok v := by
  induction pre with
  | nil => simp [first_ok, he]
  | cons a rest ih =>
    obtain ⟨err, herr⟩ := hpre a (List.mem_cons_self a rest)
    have hrest : ∀ x ∈ rest, ∃ err, f x = Except.error err :=
      fun x hx => hpre x (List.mem_cons_of_mem a hx)
    simp [first_ok, herr, ih hrest]

theorem first_ok_all_fail {T : Type} (f : String → Except Error T)
    (endpoints : List String) (g : String → Error)
    (h : ∀ x ∈ endpoints, f x = Except.error (g x)) :
    first_ok endpoints f = Except.error (endpoints.map g) := by
  induction endpoints with
  | nil => rfl
  | cons a rest ih =>
    have hrest : ∀ x ∈ rest, f x = Except.error (g x) :=
      fun x hx => h x (List.mem_cons_of_mem a hx)
    simp [first_ok, h a (List.mem_cons_self a rest), ih hrest]

theorem enable_handle_unexpected (r : HttpResponse)
    (h1 : r.status ≠ 200) (h2 : r.status ≠ 400) (h3 : r.status ≠ 409) :
    enable_handle r = Except.error (Error.unexpectedStatus r.status) := by
  rcases r with ⟨s, hdrs, body⟩
  simp only [enable_handle]

theorem disable_handle_unexpected (r : HttpResponse)
    (h1 : r.status ≠ 200) (h2 : r.status ≠ 409) (h3 : r.status ≠ 401) :
    disable_handle r = Except.error (Error.unexpectedStatus r.status) := by
  rcases r with ⟨s, hdrs, body⟩
  simp only [disable_handle]

theorem position_of_not_mem (key : String) (l : List String) (h : key ∉ l) :
    position key l = none := by
  induction l with
  | nil => rfl
  | cons a rest ih =>
    have ha : ¬(a = key) := by
      intro hak
      subst hak
      exact h (List.mem_cons_self a rest)
    have hrest : key ∉ rest := fun hk => h (List.mem_cons_of_mem a hk)
    simp [position, ha, ih hrest]

theorem position_append_key (key : String) (pre suf : List String) (h : key ∉ pre) :
    position key (pre ++ key :: suf) = some pre.length := by
  induction pre with
  | nil => simp [position]
  | cons a rest ih =>
    have ha : ¬(a = key) := by
      intro hak
      subst hak
      exact h (List.mem_cons_self a rest)
    have hrest : key ∉ rest := fun hk => h (List.mem_cons_of_mem a hk)
    simp [position, ha, ih hrest]

theorem remove_at_append (pre suf : List String) (a : String) :
    remove_at (pre ++ a :: suf) pre.length = pre ++ suf := by
  induction pre with
  | nil => rfl
  | cons b rest ih => simp [remove_at, ih]

/-- Claim C1: for every HTTP status code, `enable` maps 200 to `Enabled`,
400 to `RootUserRequired`, 409 to `AlreadyEnabled` and every other code to
`UnexpectedStatus` carrying that exact code, while `disable` maps 200 to
`Disabled`, 409 to `AlreadyDisabled`, 401 to `Unauthorized` and every
other code to `UnexpectedStatus` carrying that exact code. -/
theorem status_code_outcome_mapping (r : HttpResponse) :
    enable_handle r =
      (if r.status = 200 then
         Except.ok { data := EnableAuth.enabled,
                     cluster_info := ClusterInfo.fromHeaders r.headers }
       else if r.status = 400 then
         Except.ok { data := EnableAuth.rootUserRequired,
                     cluster_info := ClusterInfo.fromHeaders r.headers }
       else if r.status = 409 then
         Except.ok { data := EnableAuth.alreadyEnabled,
                     cluster_info := ClusterInfo.fromHeaders r.headers }
       else Except.error (Error.unexpectedStatus r.status))
    ∧ disable_handle r =
      (if r.status = 200 then
         Except.ok { data := DisableAuth.disabled,
                     cluster_info := ClusterInfo.fromHeaders r.headers }
       else if r.status = 409 then
         Except.ok { data := DisableAuth.alreadyDisabled,
                     cluster_info := ClusterInfo.fromHeaders r.headers }
       else if r.status = 401 then
         Except.ok { data := DisableAuth.unauthorized,
                     cluster_info := ClusterInfo.fromHeaders r.headers }
       else Except.error (Error.unexpectedStatus r.status)) := by
  rcases r with ⟨s, hdrs, body⟩
  refine ⟨?_, ?_⟩
  · simp only [enable_handle]
    split <;> simp_all
  · simp only [disable_handle]
    split <;> simp_all

/-- Claim C4, counterexample: for an endpoint ending in two slashes the
composed URL keeps both slashes before `v2/auth`, while the spec's rule
(exactly one trailing slash ensured) collapses them to one, so the two
disagree. -/
theorem build_url_double_slash_counterexample :
    build_url "http://a//" "/enable" = "http://a//v2/auth/enable"
    ∧ build_url_spec "http://a//" "/enable" = "http://a/v2/auth/enable"
    ∧ build_url "http://a//" "/enable" ≠ build_url_spec "http://a//" "/enable" :=
  ⟨rfl, rfl, by decide⟩

/-- Claim C4 (amended): the composed URL is the endpoint, then a slash
added only when the endpoint does not already end with one (at least one
trailing slash ensured, not exactly one: an endpoint ending in several
slashes keeps all of them), then the fixed root `v2/auth`, then the
operation suffix. -/
theorem build_url_at_least_one_slash (endpoint path : String) :
    (ends_with_slash endpoint = false →
       build_url endpoint path = endpoint ++ "/" ++ "v2/auth" ++ path)
    ∧ (ends_with_slash endpoint = true →
       build_url endpoint path = endpoint ++ "v2/auth" ++ path) := by
  constructor <;> intro h <;> simp [build_url, h]

/-- Witness for the amended C4 at a concrete endpoint without a trailing
slash. -/
theorem build_url_at_least_one_slash_witness :
    build_url "http://a" "/enable" = "http://a" ++ "/" ++ "v2/auth" ++ "/enable" :=
  (build_url_at_least_one_slash "http://a" "/enable").1 rfl

/-- Claim C9: `DisableAuth::is_disabled` is true exactly on
`AlreadyDisabled` and `Disabled` (false on `Unauthorized`), and
`EnableAuth::is_enabled` is true exactly on `AlreadyEnabled` and `Enabled`
(false on `RootUserRequired`). -/
theorem is_disabled_is_enabled_characterization (d : DisableAuth) (e : EnableAuth) :
    (d.is_disabled = true ↔ (d = DisableAuth.alreadyDisabled ∨ d = DisableAuth.disabled))
    ∧ (e.is_enabled = true ↔ (e = EnableAuth.alreadyEnabled ∨ e = EnableAuth.enabled)) := by
  cases d <;> cases e <;>
    simp [DisableAuth.is_disabled, EnableAuth.is_enabled]

/-- Claim C2: for every non-empty endpoint list, the first endpoint whose
probe succeeds determines the dispatch result of `enable`, `disable` and
`status`; endpoints after it (the list `post`, universally quantified) are
never consulted, and a single success among transport failures wins
regardless of its position. -/
theorem dispatch_first_success
    (pu : UriParse) (net : Network)
    (pa : String → Except SerdeError AuthStatus)
    (pe : String → Except SerdeError ApiError)
    (pre : List String) (e : String) (post : List String) :
    (∀ v, (∀ x ∈ pre, ∃ err, disable_probe pu net x = Except.error err) →
       disable_probe pu net e = Except.ok v →
       disable pu net (pre ++ e :: post) = Except.ok v)
    ∧ (∀ v, (∀ x ∈ pre, ∃ err, enable_probe pu net x = Except.error err) →
       enable_probe pu net e = Except.ok v →
       enable pu net (pre ++ e :: post) = Except.ok v)
    ∧ (∀ v, (∀ x ∈ pre, ∃ err, status_probe pa pe pu net x = Except.error err) →
       status_probe pa pe pu net e = Except.ok v →
       status pa pe pu net (pre ++ e :: post) = Except.ok v) :=
  ⟨fun v hpre he => first_ok_prefix_fail_success _ pre e post v hpre he,
   fun v hpre he => first_ok_prefix_fail_success _ pre e post v hpre he,
   fun v hpre he => first_ok_prefix_fail_success _ pre e post v hpre he⟩

/-- Witness for C2: endpoints `["a", "b", "c"]`, where only `"b"` answers
(status 200) and the others fail at the connection level; the dispatch
succeeds with `Disabled`. -/
theorem dispatch_first_success_witness :
    disable some demoNet ["a", "b", "c"] =
      Except.ok { data := DisableAuth.disabled,
                  cluster_info := ClusterInfo.fromHeaders [] } :=
  (dispatch_first_success some demoNet demoParseAuthStatus demoParseApiError
      ["a"] "b" ["c"]).1
    { data := DisableAuth.disabled, cluster_info := ClusterInfo.fromHeaders [] }
    (by
      intro x hx
      have hxa : x = "a" := List.mem_singleton.mp hx
      subst hxa
      exact ⟨Error.transport "connection refused", rfl⟩)
    rfl

/-- Claim C3: when every endpoint's probe fails, `enable`, `disable` and
`status` return exactly one error per endpoint, in the caller-supplied
order, with no deduplication, and the collection is non-empty whenever
the endpoint list is. -/
theorem dispatch_all_fail
    (pu : UriParse) (net : Network)
    (pa : String → Except SerdeError AuthStatus)
    (pe : String → Except SerdeError ApiError)
    (endpoints : List String) :
    (∀ g : String → Error,
       (∀ x ∈ endpoints, disable_probe pu net x = Except.error (g x)) →
       disable pu net endpoints = Except.error (endpoints.map g)
       ∧ (endpoints ≠ [] → endpoints.map g ≠ []))
    ∧ (∀ g : String → Error,
       (∀ x ∈ endpoints, enable_probe pu net x = Except.error (g x)) →
       enable pu net endpoints = Except.error (endpoints.map g)
       ∧ (endpoints ≠ [] → endpoints.map g ≠ []))
    ∧ (∀ g : String → Error,
       (∀ x ∈ endpoints, status_probe pa pe pu net x = Except.error (g x)) →
       status pa pe pu net endpoints = Except.error (endpoints.map g)
       ∧ (endpoints ≠ [] → endpoints.map g ≠ [])) := by
  refine ⟨fun g hg => ⟨first_ok_all_fail _ endpoints g hg, ?_⟩,
          fun g hg => ⟨first_ok_all_fail _ endpoints g hg, ?_⟩,
          fun g hg => ⟨first_ok_all_fail _ endpoints g hg, ?_⟩⟩ <;>
    · intro hne hmap
      exact hne (by simpa using hmap)

/-- Witness for C3: two endpoints, both failing at the connection level;
the dispatch of `disable` returns one `Transport` error per endpoint, in
order, without deduplicating the two identical errors. -/
theorem dispatch_all_fail_witness :
    disable some netAllFail ["a", "b"] = Except.error (["a", "b"].map connRefused)
    ∧ ["a", "b"].map connRefused ≠ [] := by
  have h := (dispatch_all_fail some netAllFail demoParseAuthStatus demoParseApiError
      ["a", "b"]).1 connRefused
    (by
      intro x hx
      simp only [List.mem_cons, List.not_mem_nil, or_false] at hx
      rcases hx with rfl | rfl <;> rfl)
  exact ⟨(h.1 : _), h.2 (by decide)⟩

/-- Claim C10: revoking a read or write permission removes only the first
occurrence of the key, preserves the order of the remaining entries, and
leaves the list unchanged without error when the key is absent; the
`RoleUpdate` revocation methods delegate to exactly these removals. -/
theorem remove_permission_first_occurrence_only (key : String) (p : Permission) :
    (key ∉ p.read → p.remove_read_permission key = p)
    ∧ (∀ pre suf, p.read = pre ++ key :: suf → key ∉ pre →
        p.remove_read_permission key = { p with read := pre ++ suf })
    ∧ (key ∉ p.write → p.remove_write_permission key = p)
    ∧ (∀ pre suf, p.write = pre ++ key :: suf → key ∉ pre →
        p.remove_write_permission key = { p with write := pre ++ suf })
    ∧ (∀ r : RoleUpdate, r.revoke_kv_read_permission key =
        { r with revocations := { kv := r.revocations.kv.remove_read_permission key } })
    ∧ (∀ r : RoleUpdate, r.revoke_kv_write_permission key =
        { r with revocations := { kv := r.revocations.kv.remove_write_permission key } }) := by
  rcases p with ⟨rd, wr⟩
  refine ⟨?_, ?_, ?_, ?_, fun r => rfl, fun r => rfl⟩
  · intro h
    simp [Permission.remove_read_permission, position_of_not_mem key rd h]
  · intro pre suf hread hpre
    subst hread
    simp [Permission.remove_read_permission, position_append_key key pre suf hpre,
      remove_at_append]
  · intro h
    simp [Permission.remove_write_permission, position_of_not_mem key wr h]
  · intro pre suf hwrite hpre
    subst hwrite
    simp [Permission.remove_write_permission, position_append_key key pre suf hpre,
      remove_at_append]

/-- Witness for C10: removing `"k"` from `["a", "k", "b", "k"]` drops only
the first `"k"`, keeping the later duplicate and the order of the rest. -/
theorem remove_permission_first_occurrence_only_witness :
    Permission.remove_read_permission { read := ["a", "k", "b", "k"], write := [] } "k" =
      { read := ["a", "b", "k"], write := [] } :=
  (remove_permission_first_occurrence_only "k"
      { read := ["a", "k", "b", "k"], write := [] }).2.1
    ["a"] ["b", "k"] rfl (by decide)

/-- Claim C5: on the status operation, a 200 response has its body parsed
as `{enabled: bool}` and that boolean is the outcome, a parse failure
yielding `Serialization`; a non-200 response has its body parsed as the
application error payload yielding an `Application` error (`Error::Api`),
and if that parse also fails the result is `Serialization`. -/
theorem status_body_mapping
    (pa : String → Except SerdeError AuthStatus)
    (pe : String → Except SerdeError ApiError)
    (r : HttpResponse) :
    (∀ d, r.status = 200 → pa r.body = Except.ok d →
       status_handle pa pe r =
         Except.ok { data := d.enabled, cluster_info := ClusterInfo.fromHeaders r.headers })
    ∧ (∀ e, r.status = 200 → pa r.body = Except.error e →
       status_handle pa pe r = Except.error (Error.serialization e))
    ∧ (∀ e, r.status ≠ 200 → pe r.body = Except.ok e →
       status_handle pa pe r = Except.error (Error.api e))
    ∧ (∀ e, r.status ≠ 200 → pe r.body = Except.error e →
       status_handle pa pe r = Except.error (Error.serialization e)) := by
  refine ⟨?_, ?_, ?_, ?_⟩ <;>
    · intro z h1 h2
      simp [status_handle, h1, h2]

/-- Witness for C5, the spec's scenario: status 500 with a body not
parseable as the application error shape fails with `Serialization`. -/
theorem status_body_mapping_witness :
    status_handle demoParseAuthStatus demoParseApiError
      { status := 500, headers := [], body := "oops" } =
      Except.error (Error.serialization { msg := "invalid JSON" }) :=
  (status_body_mapping demoParseAuthStatus demoParseApiError
      { status := 500, headers := [], body := "oops" }).2.2.2
    { msg := "invalid JSON" } (by decide) rfl

/-- Claim C6: a status code that maps to `UnexpectedStatus` yields an
error carrying only that code and no cluster metadata: the result is
identical for any two responses with that status code, whatever their
headers, so the metadata extracted from the response is discarded. -/
theorem unexpected_status_discards_metadata (r r' : HttpResponse)
    (hs : r.status = r'.status) :
    (r.status ≠ 200 → r.status ≠ 400 → r.status ≠ 409 →
       enable_handle r = Except.error (Error.unexpectedStatus r.status)
       ∧ enable_handle r = enable_handle r')
    ∧ (r.status ≠ 200 → r.status ≠ 409 → r.status ≠ 401 →
       disable_handle r = Except.error (Error.unexpectedStatus r.status)
       ∧ disable_handle r = disable_handle r') := by
  constructor
  · intro h1 h2 h3
    have h1' : r'.status ≠ 200 := by rw [← hs]; exact h1
    have h2' : r'.status ≠ 400 := by rw [← hs]; exact h2
    have h3' : r'.status ≠ 409 := by rw [← hs]; exact h3
    have he := enable_handle_unexpected r h1 h2 h3
    have he' := enable_handle_unexpected r' h1' h2' h3'
    exact ⟨he, by rw [he, he', hs]⟩
  · intro h1 h2 h3
    have h1' : r'.status ≠ 200 := by rw [← hs]; exact h1
    have h2' : r'.status ≠ 409 := by rw [← hs]; exact h2
    have h3' : r'.status ≠ 401 := by rw [← hs]; exact h3
    have hd := disable_handle_unexpected r h1 h2 h3
    have hd' := disable_handle_unexpected r' h1' h2' h3'
    exact ⟨hd, by rw [hd, hd', hs]⟩

/-- Witness for C6: a 418 response with a cluster-id header maps to the
bare `UnexpectedStatus 418`, equal to the result for a 418 response with
no headers at all. -/
theorem unexpected_status_discards_metadata_witness :
    enable_handle { status := 418, headers := [("X-Etcd-Cluster-Id", "abc")], body := "" } =
      Except.error (Error.unexpectedStatus 418)
    ∧ enable_handle { status := 418, headers := [("X-Etcd-Cluster-Id", "abc")], body := "" } =
      enable_handle { status := 418, headers := [], body := "" } :=
  (unexpected_status_discards_metadata
      { status := 418, headers := [("X-Etcd-Cluster-Id", "abc")], body := "" }
      { status := 418, headers := [], body := "" } rfl).1
    (by decide) (by decide) (by decide)

/-- Claim C7: when the composed URL fails URI parsing, each probe fails
with a `Transport`-class error and issues no network call: the result is
independent of the transport. -/
theorem malformed_url_no_network_call
    (pu : UriParse) (net net' : Network)
    (pa : String → Except SerdeError AuthStatus)
    (pe : String → Except SerdeError ApiError)
    (member : String)
    (h : pu (build_url member "/enable") = none) :
    (∃ msg, disable_probe pu net member = Except.error (Error.transport msg))
    ∧ disable_probe pu net member = disable_probe pu net' member
    ∧ (∃ msg, enable_probe pu net member = Except.error (Error.transport msg))
    ∧ enable_probe pu net member = enable_probe pu net' member
    ∧ (∃ msg, status_probe pa pe pu net member = Except.error (Error.transport msg))
    ∧ status_probe pa pe pu net member = status_probe pa pe pu net' member := by
  have hd : ∀ n : Network, disable_probe pu n member =
      Except.error (Error.transport ("invalid URI: " ++ build_url member "/enable")) := by
    intro n
    simp [disable_probe, h]
  have he : ∀ n : Network, enable_probe pu n member =
      Except.error (Error.transport ("invalid URI: " ++ build_url member "/enable")) := by
    intro n
    simp [enable_probe, h]
  have hg : ∀ n : Network, status_probe pa pe pu n member =
      Except.error (Error.transport ("invalid URI: " ++ build_url member "/enable")) := by
    intro n
    simp [status_probe, h]
  exact ⟨⟨_, hd net⟩, by rw [hd net, hd net'],
         ⟨_, he net⟩, by rw [he net, he net'],
         ⟨_, hg net⟩, by rw [hg net, hg net']⟩

/-- Witness for C7: a URI parser rejecting everything makes the disable,
enable and status probes fail with `Transport` on two transports that
otherwise behave differently. -/
theorem malformed_url_no_network_call_witness :
    (∃ msg, disable_probe badParse netAllFail "a" = Except.error (Error.transport msg))
    ∧ disable_probe badParse netAllFail "a" = disable_probe badParse demoNet "a"
    ∧ (∃ msg, enable_probe badParse netAllFail "a" = Except.error (Error.transport msg))
    ∧ enable_probe badParse netAllFail "a" = enable_probe badParse demoNet "a"
    ∧ (∃ msg, status_probe demoParseAuthStatus demoParseApiError badParse netAllFail "a" =
        Except.error (Error.transport msg))
    ∧ status_probe demoParseAuthStatus demoParseApiError badParse netAllFail "a" =
        status_probe demoParseAuthStatus demoParseApiError badParse demoNet "a" :=
  malformed_url_no_network_call badParse netAllFail demoNet
    demoParseAuthStatus demoParseApiError "a" rfl

/-- Claim C8: all three operations compose the same URL from the suffix
`"/enable"` (none uses a `"/disable"` or `"/status"` suffix); their
requests to that URL differ only in method and body: DELETE with no body
for disable, PUT with an empty body for enable, GET with no body for
status, and each probe consults the transport only at its one request. -/
theorem operations_share_url_distinct_methods
    (pu : UriParse) (net net' : Network)
    (pa : String → Except SerdeError AuthStatus)
    (pe : String → Except SerdeError ApiError)
    (member u : String)
    (hu : pu (build_url member "/enable") = some u)
    (hd : net (disable_request u) = net' (disable_request u))
    (he : net (enable_request u) = net' (enable_request u))
    (hg : net (status_request u) = net' (status_request u)) :
    ((disable_request u).uri = u ∧ (enable_request u).uri = u ∧ (status_request u).uri = u)
    ∧ (disable_request u).method = Method.delete ∧ (disable_request u).body = none
    ∧ (enable_request u).method = Method.put ∧ (enable_request u).body = some ""
    ∧ (status_request u).method = Method.get ∧ (status_request u).body = none
    ∧ disable_probe pu net member = disable_probe pu net' member
    ∧ enable_probe pu net member = enable_probe pu net' member
    ∧ status_probe pa pe pu net member = status_probe pa pe pu net' member := by
  refine ⟨⟨rfl, rfl, rfl⟩, rfl, rfl, rfl, rfl, rfl, rfl, ?_, ?_, ?_⟩
  · simp [disable_probe, hu, hd]
  · simp [enable_probe, hu, he]
  · simp [status_probe, hu, hg]

/-- Witness for C8 at endpoint `"b"`, whose composed URL is
`"b/v2/auth/enable"`, on two transports that agree at that URL. -/
theorem operations_share_url_distinct_methods_witness :
    ((disable_request "b/v2/auth/enable").uri = "b/v2/auth/enable"
      ∧ (enable_request "b/v2/auth/enable").uri = "b/v2/auth/enable"
      ∧ (status_request "b/v2/auth/enable").uri = "b/v2/auth/enable")
    ∧ (disable_request "b/v2/auth/enable").method = Method.delete
    ∧ (disable_request "b/v2/auth/enable").body = none
    ∧ (enable_request "b/v2/auth/enable").method = Method.put
    ∧ (enable_request "b/v2/auth/enable").body = some ""
    ∧ (status_request "b/v2/auth/enable").method = Method.get
    ∧ (status_request "b/v2/auth/enable").body = none
    ∧ disable_probe some demoNet "b" = disable_probe some demoNetAlt "b"
    ∧ enable_probe some demoNet "b" = enable_probe some demoNetAlt "b"
    ∧ status_probe demoParseAuthStatus demoParseApiError some demoNet "b" =
        status_probe demoParseAuthStatus demoParseApiError some demoNetAlt "b" :=
  operations_share_url_distinct_methods some demoNet demoNetAlt
    demoParseAuthStatus demoParseApiError "b" "b/v2/auth/enable" rfl rfl rfl rfl

end RustEtcd
